import Mathlib

/-!
Shallow embedding of the translation gateway of this repository.

The repository has two Python modules:

  * src/translator.py, whose effective public interface is
    translate_content (second definition, lines 133-181) and its wrapper
    query_llm_robust (lines 184-190).  The file also contains an earlier,
    table-based definition of translate_content (lines 3-36) that the
    second definition shadows at import time; it is embedded below as
    translate_content_first.
  * src/llm_experiment.py, whose public interface is query_llm_robust
    (lines 90-122); its helpers get_language and get_translation
    (lines 61-87 and 37-58) are line-for-line the same computations as the
    helpers of translator.py (lines 101-130 and 76-98), so they are
    embedded once and shared.

The external chat service is modelled by an Oracle: the outcome the client
call would produce for the language-detection request and for the
translation request.  An outcome is either a raised exception (kind and
message) or a returned response, whose shape follows the cases the code
inspects: an object carrying message.content, or a dict carrying
message.content, with any field possibly absent, and with the content
being a string or some non-string value.

Machine-level caveats of the embedding, each noted at its definition:
Python str.strip is modelled on the ASCII whitespace characters,
str.lower by Char.toLower (ASCII), and the message texts of the
AttributeError raised inside get_translation omit the quote characters
CPython puts around type and attribute names; no claim below depends on
any of these.
-/

/-- Python str.isspace on the ASCII range: the characters str.strip
removes from the ends of a string.  Unicode space characters are omitted;
no input considered below contains one. -/
def pyIsSpace (c : Char) : Bool :=
  c = ' ' || c = '\t' || c = '\n' || c = '\r' || c = '\x0b' || c = '\x0c'

/-- Removal of leading and trailing whitespace from a list of characters:
drop spaces at the front, then drop spaces at the front of the reversal
and reverse back. -/
def pyStripList (l : List Char) : List Char :=
  ((l.dropWhile pyIsSpace).reverse.dropWhile pyIsSpace).reverse

/-- Python str.strip(). -/
def pyStrip (s : String) : String :=
  String.mk (pyStripList s.data)

/-- Python str.lower(), modelled characterwise by Char.toLower; exact on
the ASCII range, which covers every comparison the code performs (the
membership test against the list containing english and en). -/
def pyLower (s : String) : String :=
  String.mk (s.data.map Char.toLower)

/-- Error marker produced by the two except handlers:
f-string of the form left bracket, Error:, the exception class name,
a dash, the exception message, right bracket
(translator.py lines 98, 130, 181; llm_experiment.py lines 58, 87, 122). -/
def errMarker (kind msg : String) : String :=
  "[Error: " ++ kind ++ " - " ++ msg ++ "]"

/-- Python value sitting in the content field of a chat response.
vstr is an actual str; vother is any non-string value (None, a dict, a
number, ...) with its type name and its str() rendering.  Calling .strip()
on a vother raises AttributeError. -/
inductive PyVal where
  | vstr (s : String)
  | vother (ty rep : String)

/-- Python str() applied to a content value. -/
def PyVal.pyStr : PyVal → String
  | .vstr s => s
  | .vother _ rep => rep

/-- Shape of a successfully returned chat response, following the cases
the code inspects.  obj none: the message attribute is absent or None;
obj (some none): message present but its content attribute absent;
obj (some (some v)): message.content is the value v.  dict none: the
message or content key is missing; dict (some v): the content key holds
v. -/
inductive RespShape where
  | obj (message : Option (Option PyVal))
  | dict (content : Option PyVal)

/-- Content extraction performed by get_language (translator.py lines
122-126, llm_experiment.py lines 80-83): dict responses go through
response.get with default values, object responses through getattr with
default values, so every missing field collapses to the empty string. -/
def contentOf : RespShape → PyVal
  | .obj none => .vstr ""
  | .obj (some none) => .vstr ""
  | .obj (some (some v)) => v
  | .dict none => .vstr ""
  | .dict (some v) => v

/-- Outcome of one client.chat call: either a response or a raised
exception with its class name and message. -/
inductive ChatResp where
  | success (shape : RespShape)
  | exc (kind msg : String)

/-- Behavior of the external chat service during one run of the gateway:
the outcome of the language-detection call and the outcome of the
translation call (each call is made at most once per run). -/
structure Oracle where
  langResp : ChatResp
  transResp : ChatResp

/-- get_language (translator.py lines 101-130, llm_experiment.py lines
61-87, identical computations).  On a response it extracts the content
through the dict/object cases and returns str(content).strip(); str()
never fails, so the function always returns a string.  On an exception it
returns the error marker.  The post argument only feeds the prompt sent
to the service, hence does not influence the returned value given the
call outcome. -/
def get_language (post : String) (resp : ChatResp) : String :=
  match post, resp with
  | _, .success shape => pyStrip (contentOf shape).pyStr
  | _, .exc kind msg => errMarker kind msg

/-- get_translation (translator.py lines 76-98, llm_experiment.py lines
37-58, identical computations).  It evaluates
response.message.content.strip() with no shape normalization, so any
response that is not an object carrying a string message.content raises
AttributeError inside the try block and yields an error marker.  The
AttributeError messages follow CPython but omit the quote characters
around names. -/
def get_translation (post : String) (resp : ChatResp) : String :=
  match post, resp with
  | _, .exc kind msg => errMarker kind msg
  | _, .success (.obj (some (some (.vstr s)))) => pyStrip s
  | _, .success (.obj (some (some (.vother ty _)))) =>
      errMarker ("AttributeError") (ty ++ " object has no attribute strip")
  | _, .success (.obj (some none)) =>
      errMarker ("AttributeError") ("Message object has no attribute content")
  | _, .success (.obj none) =>
      errMarker ("AttributeError") ("NoneType object has no attribute content")
  | _, .success (.dict _) =>
      errMarker ("AttributeError") ("dict object has no attribute message")

/-- First definition of translate_content in translator.py (lines 3-36):
a hardcoded lookup table of literal inputs with canned translations,
falling through to (True, content).  At import time this definition is
shadowed by the second definition of the same name (lines 133-181), so it
is unreachable from the module; it is embedded to state what it would
compute. -/
def translate_content_first (content : String) : Bool × String :=
  if content = "这是一条中文消息" then (false, "This is a Chinese message")
  else if content = "Ceci est un message en français" then (false, "This is a French message")
  else if content = "Esta es un mensaje en español" then (false, "This is a Spanish message")
  else if content = "Esta é uma mensagem em português" then (false, "This is a Portuguese message")
  else if content = "これは日本語のメッセージです" then (false, "This is a Japanese message")
  else if content = "이것은 한국어 메시지입니다" then (false, "This is a Korean message")
  else if content = "Dies ist eine Nachricht auf Deutsch" then (false, "This is a German message")
  else if content = "Questo è un messaggio in italiano" then (false, "This is an Italian message")
  else if content = "Это сообщение на русском" then (false, "This is a Russian message")
  else if content = "هذه رسالة باللغة العربية" then (false, "This is an Arabic message")
  else if content = "यह हिंदी में संदेश है" then (false, "This is a Hindi message")
  else if content = "นี่คือข้อความภาษาไทย" then (false, "This is a Thai message")
  else if content = "Bu bir Türkçe mesajdır" then (false, "This is a Turkish message")
  else if content = "Đây là một tin nhắn bằng tiếng Việt" then (false, "This is a Vietnamese message")
  else if content = "Esto es un mensaje en catalán" then (false, "This is a Catalan message")
  else if content = "This is an English message" then (true, "This is an English message")
  else (true, content)

/-- Effective translate_content of translator.py (second definition,
lines 133-181), instrumented with the number of client.chat calls the run
performs (get_language and get_translation each make exactly one).  The
local bindings text, lang and translation of the source are inlined; the
isinstance str checks on lines 161 and 175 are always true because
get_language and get_translation return strings on every path, so only
the emptiness halves of those conditions remain; the outer except on line
180 is unreachable because the helpers catch their own exceptions and the
remaining operations are pure string manipulation.  The source applies
or-with-empty-string then strip to the input (line 152), which on strings
equals strip alone. -/
def translate_contentC (post : String) (o : Oracle) : (Bool × String) × Nat :=
  if pyStrip post = "" then ((true, ""), 0)
  else if pyStrip (get_language (pyStrip post) o.langResp) = "" then
    ((false, "[Invalid language detection output]"), 1)
  else if pyLower (pyStrip (get_language (pyStrip post) o.langResp)) ∈ ["english", "en"] then
    ((true, pyStrip post), 1)
  else if pyStrip (get_translation (pyStrip post) o.transResp) = "" then
    ((false, "[Invalid translation output]"), 2)
  else ((false, pyStrip (get_translation (pyStrip post) o.transResp)), 2)

/-- Result of translate_content (translator.py lines 133-181). -/
def translate_content (post : String) (o : Oracle) : Bool × String :=
  (translate_contentC post o).1

/-- query_llm_robust of translator.py (lines 184-190): a direct wrapper
returning translate_content(post). -/
def query_llm_robust (post : String) (o : Oracle) : Bool × String :=
  translate_content post o

/-- query_llm_robust of llm_experiment.py (lines 90-122), instrumented
with the client.chat call count.  Unlike translator.translate_content it
has no empty-input guard, and it passes the raw post to get_language and
get_translation while returning post.strip() on the English branch.  The
isinstance checks and the outer except are handled as in
translate_contentC. -/
def exp_query_llm_robustC (post : String) (o : Oracle) : (Bool × String) × Nat :=
  if pyStrip (get_language post o.langResp) = "" then
    ((false, "[Invalid language detection output]"), 1)
  else if pyLower (pyStrip (get_language post o.langResp)) ∈ ["english", "en"] then
    ((true, pyStrip post), 1)
  else if pyStrip (get_translation post o.transResp) = "" then
    ((false, "[Invalid translation output]"), 2)
  else ((false, pyStrip (get_translation post o.transResp)), 2)

/-- Result of llm_experiment.query_llm_robust. -/
def exp_query_llm_robust (post : String) (o : Oracle) : Bool × String :=
  (exp_query_llm_robustC post o).1

/-- Successful chat response whose message.content is the string s. -/
def strResp (s : String) : ChatResp :=
  ChatResp.success (RespShape.obj (some (some (PyVal.vstr s))))

/-- Service behavior: detection answers English (padded), translation
would answer a fixed string (never consulted on the English path). -/
def oEnglish : Oracle := ⟨strResp (" English "), strResp ("unused")⟩

/-- Service behavior: the detection call raises, the translation call
succeeds with the string Hello. -/
def oDetectRaise : Oracle := ⟨ChatResp.exc ("Exception") ("boom"), strResp ("Hello")⟩

/-- Service behavior: detection answers Spanish, the translation call
raises a timeout. -/
def oTransRaise : Oracle := ⟨strResp ("Spanish"), ChatResp.exc ("TimeoutError") ("slow")⟩

/-- Service behavior: detection answers Chinese, translation answers a
string different from every canned table entry. -/
def oChinese : Oracle := ⟨strResp ("Chinese"), strResp ("XYZ")⟩

/-- Service behavior of the round-trip scenario: detection answers
Spanish, translation answers Hello. -/
def oSpanish : Oracle := ⟨strResp ("Spanish"), strResp ("Hello")⟩

/-- Service behavior: the detection response content is whitespace only,
so it strips to the empty string. -/
def oBlankLang : Oracle := ⟨strResp ("   "), strResp ("whatever")⟩

/-- Service behavior: detection answers French, translation answers a
padded string. -/
def oFrench : Oracle := ⟨strResp ("French"), strResp (" Hi there ")⟩

/-- Service behavior: detection answers Latin, the translation response
content strips to the empty string. -/
def oLatin : Oracle := ⟨strResp ("Latin"), strResp ("   ")⟩

/- Helper lemmas about stripping, lowering and the error marker. -/

/-- Appending strings appends their character lists. -/
theorem data_append (a b : String) : (a ++ b).data = a.data ++ b.data := by
  cases a; cases b; rfl

/-- Repackaging the character list of a string gives the string back. -/
theorem mk_data (s : String) : String.mk s.data = s := by
  cases s; rfl

/-- Character list of a stripped string. -/
theorem data_pyStrip (s : String) : (pyStrip s).data = pyStripList s.data := rfl

/-- Character list of a lowered string. -/
theorem data_pyLower (s : String) : (pyLower s).data = s.data.map Char.toLower := rfl

/-- dropWhile is idempotent. -/
theorem dropWhile_dropWhile (p : Char → Bool) (l : List Char) :
    (l.dropWhile p).dropWhile p = l.dropWhile p := by
  induction l with
  | nil => rfl
  | cons a t ih =>
    rw [List.dropWhile_cons]
    by_cases h : p a = true
    · rw [if_pos h]; exact ih
    · rw [if_neg h, List.dropWhile_cons, if_neg h]

/-- The head of a dropWhile result does not satisfy the predicate. -/
theorem head_dropWhile_false (p : Char → Bool) (l : List Char) :
    ∀ a, (l.dropWhile p).head? = some a → p a = false := by
  induction l with
  | nil => intro a h; simp [List.dropWhile] at h
  | cons b t ih =>
    intro a h
    rw [List.dropWhile_cons] at h
    by_cases hb : p b = true
    · rw [if_pos hb] at h; exact ih a h
    · rw [if_neg hb, List.head?_cons] at h
      cases h
      simp only [Bool.not_eq_true] at hb
      exact hb

/-- A list whose head does not satisfy the predicate is fixed by
dropWhile. -/
theorem dropWhile_eq_self (p : Char → Bool) (l : List Char)
    (h : ∀ a, l.head? = some a → p a = false) : l.dropWhile p = l := by
  cases l with
  | nil => rfl
  | cons a t =>
    rw [List.dropWhile_cons, if_neg]
    simp [h a rfl]

/-- dropWhile removes a front segment: some prefix restores the list. -/
theorem dropWhile_suffix (p : Char → Bool) (l : List Char) :
    ∃ t, t ++ l.dropWhile p = l := by
  induction l with
  | nil => exact ⟨[], rfl⟩
  | cons a t ih =>
    by_cases h : p a = true
    · obtain ⟨u, hu⟩ := ih
      exact ⟨a :: u, by rw [List.dropWhile_cons, if_pos h, List.cons_append, hu]⟩
    · exact ⟨[], by rw [List.dropWhile_cons, if_neg h]; rfl⟩

/-- Stripping both ends of a character list is idempotent. -/
theorem pyStripList_idem (l : List Char) :
    pyStripList (pyStripList l) = pyStripList l := by
  unfold pyStripList
  set m := l.dropWhile pyIsSpace with hm
  set r := m.reverse.dropWhile pyIsSpace with hr
  have hmhead : ∀ a, m.head? = some a → pyIsSpace a = false := by
    intro a ha
    exact head_dropWhile_false pyIsSpace l a ha
  obtain ⟨t, ht⟩ := dropWhile_suffix pyIsSpace m.reverse
  have hm2 : m = r.reverse ++ t.reverse := by
    have h2 := congrArg List.reverse ht
    simpa [List.reverse_append] using h2.symm
  have hshead : ∀ a, r.reverse.head? = some a → pyIsSpace a = false := by
    intro a ha
    apply hmhead a
    rw [hm2]
    cases hrr : r.reverse with
    | nil => rw [hrr] at ha; exact absurd ha (by simp)
    | cons b u =>
      rw [hrr] at ha
      rw [List.head?_cons] at ha
      simpa using ha
  have h4 : r.reverse.dropWhile pyIsSpace = r.reverse :=
    dropWhile_eq_self _ _ hshead
  rw [h4, List.reverse_reverse, dropWhile_dropWhile]

/-- Stripping a string twice equals stripping it once. -/
theorem pyStrip_idem (s : String) : pyStrip (pyStrip s) = pyStrip s := by
  exact congrArg String.mk (pyStripList_idem s.data)

/-- A character list delimited by brackets is fixed by stripping. -/
theorem strip_bracketed (x : List Char) :
    pyStripList ('[' :: (x ++ [']'])) = '[' :: (x ++ [']']) := by
  unfold pyStripList
  have h1 : List.dropWhile pyIsSpace ('[' :: (x ++ [']'])) = '[' :: (x ++ [']']) := by
    rw [List.dropWhile_cons, if_neg (by decide)]
  rw [h1]
  have h2 : ('[' :: (x ++ [']'])).reverse = ']' :: (x.reverse ++ ['[']) := by
    simp
  rw [h2, List.dropWhile_cons, if_neg (by decide)]
  simp

/-- Character list of an error marker: an opening bracket, the payload,
and a closing bracket. -/
theorem errMarker_data (k m : String) :
    (errMarker k m).data =
      '[' :: ((("Error: ").data ++ k.data ++ (" - ").data ++ m.data) ++ [']']) := by
  simp only [errMarker, data_append]
  simp [List.append_assoc]

/-- Error markers carry no surrounding whitespace, so stripping them is
the identity. -/
theorem pyStrip_errMarker (k m : String) :
    pyStrip (errMarker k m) = errMarker k m := by
  unfold pyStrip
  rw [errMarker_data, strip_bracketed, ← errMarker_data, mk_data]

/-- Error markers are never the empty string. -/
theorem errMarker_ne_empty (k m : String) : errMarker k m ≠ "" := by
  intro h
  have h2 := congrArg String.data h
  rw [errMarker_data] at h2
  simp at h2

/-- A lowered error marker still begins with a bracket, so it is never
recognized as English. -/
theorem errMarker_lower_notin (k m : String) :
    pyLower (pyStrip (errMarker k m)) ∉ (["english", "en"] : List String) := by
  rw [pyStrip_errMarker]
  have hL : (pyLower (errMarker k m)).data.head? = some '[' := by
    rw [data_pyLower, errMarker_data]
    rfl
  intro hmem
  simp only [List.mem_cons, List.mem_singleton, List.not_mem_nil, or_false] at hmem
  cases hmem with
  | inl h =>
    have h3 := congrArg (fun s : String => s.data.head?) h
    simp only at h3
    rw [hL] at h3
    exact absurd h3 (by decide)
  | inr h =>
    have h3 := congrArg (fun s : String => s.data.head?) h
    simp only at h3
    rw [hL] at h3
    exact absurd h3 (by decide)

/-- get_language always returns a string already stripped. -/
theorem pyStrip_get_language (p : String) (r : ChatResp) :
    pyStrip (get_language p r) = get_language p r := by
  cases r with
  | success shape => exact pyStrip_idem _
  | exc k m => exact pyStrip_errMarker k m

/-- get_translation always returns a string already stripped. -/
theorem pyStrip_get_translation (p : String) (r : ChatResp) :
    pyStrip (get_translation p r) = get_translation p r := by
  cases r with
  | exc k m => exact pyStrip_errMarker k m
  | success shape =>
    cases shape with
    | dict c => exact pyStrip_errMarker _ _
    | obj msg =>
      cases msg with
      | none => exact pyStrip_errMarker _ _
      | some c =>
        cases c with
        | none => exact pyStrip_errMarker _ _
        | some v =>
          cases v with
          | vstr s => exact pyStrip_idem _
          | vother ty rep => exact pyStrip_errMarker _ _

/- Claim theorems. -/

/-- C5: for every input with non-whitespace content (whitespace-only
inputs return earlier and never reach the classifier), if the
language-detection result strips to the empty string, translate_content
returns exactly (false, the invalid-language-detection marker) and the
translation call is never made (exactly one chat call happens). -/
theorem invalid_language_detection (post : String) (o : Oracle)
    (h0 : pyStrip post ≠ "")
    (h1 : pyStrip (get_language (pyStrip post) o.langResp) = "") :
    translate_contentC post o = ((false, "[Invalid language detection output]"), 1) := by
  unfold translate_contentC
  rw [if_neg h0, if_pos h1]

/-- C5 witness: input abc with a whitespace-only detection response. -/
theorem invalid_language_detection_witness :
    translate_contentC ("abc") oBlankLang = ((false, "[Invalid language detection output]"), 1) :=
  invalid_language_detection ("abc") oBlankLang (by decide) (by decide)

/-- C6: for every input with non-whitespace content, if the classifier
result is non-empty and not recognized as English and the translation
call returns a non-empty string, translate_content returns (false,
translated_string), the translated string being exactly the output of
get_translation. -/
theorem nonenglish_translation_result (post : String) (o : Oracle)
    (h0 : pyStrip post ≠ "")
    (h1 : pyStrip (get_language (pyStrip post) o.langResp) ≠ "")
    (h2 : pyLower (pyStrip (get_language (pyStrip post) o.langResp)) ∉ (["english", "en"] : List String))
    (h3 : get_translation (pyStrip post) o.transResp ≠ "") :
    translate_content post o = (false, get_translation (pyStrip post) o.transResp) := by
  unfold translate_content translate_contentC
  rw [if_neg h0, if_neg h1, if_neg h2,
    if_neg (by rw [pyStrip_get_translation]; exact h3), pyStrip_get_translation]

/-- C6 witness: French input, translation answering a padded greeting. -/
theorem nonenglish_translation_result_witness :
    translate_content ("Salut") oFrench = (false, "Hi there") := by
  have h := nonenglish_translation_result ("Salut") oFrench
    (by decide) (by decide) (by decide) (by decide)
  rw [h]
  decide

/-- C7: for every input with non-whitespace content classified as
non-English, if the translation result strips to the empty string,
translate_content returns exactly (false, the invalid-translation
marker). -/
theorem invalid_translation_output (post : String) (o : Oracle)
    (h0 : pyStrip post ≠ "")
    (h1 : pyStrip (get_language (pyStrip post) o.langResp) ≠ "")
    (h2 : pyLower (pyStrip (get_language (pyStrip post) o.langResp)) ∉ (["english", "en"] : List String))
    (h3 : pyStrip (get_translation (pyStrip post) o.transResp) = "") :
    translate_content post o = (false, "[Invalid translation output]") := by
  unfold translate_content translate_contentC
  rw [if_neg h0, if_neg h1, if_neg h2, if_pos h3]

/-- C7 witness: Latin input, translation response content whitespace
only. -/
theorem invalid_translation_output_witness :
    translate_content ("Salve") oLatin = (false, "[Invalid translation output]") :=
  invalid_translation_output ("Salve") oLatin (by decide) (by decide) (by decide) (by decide)

/-- C8: the round-trip scenario: input Hola, classifier answering
Spanish, translator answering Hello, output exactly (false, Hello). -/
theorem hola_round_trip : translate_content ("Hola") oSpanish = (false, "Hello") := by decide

/-- C2 counterexample: input with surrounding whitespace classified as
English comes back stripped, not unchanged, so the claim that
translate_content returns the input text unchanged fails. -/
theorem english_branch_strips_input :
    translate_content (" Hola ") oEnglish = (true, "Hola") ∧
    translate_content (" Hola ") oEnglish ≠ (true, " Hola ") := by decide

/-- C2 amended: for every input with non-whitespace content, if the
classifier response, stripped and lowered, is english or en, then
translate_content returns (true, input stripped of surrounding
whitespace), which equals the input whenever the input carries no
surrounding whitespace; any non-empty response outside that set is
treated as non-English (the resulting boolean is false). -/
theorem translate_content_english_branch (post : String) (o : Oracle)
    (h0 : pyStrip post ≠ "") :
    (pyLower (pyStrip (get_language (pyStrip post) o.langResp)) ∈ (["english", "en"] : List String) →
      translate_content post o = (true, pyStrip post)) ∧
    (pyStrip (get_language (pyStrip post) o.langResp) ≠ "" →
      pyLower (pyStrip (get_language (pyStrip post) o.langResp)) ∉ (["english", "en"] : List String) →
      (translate_content post o).1 = false) := by
  constructor
  · intro he
    have h1 : pyStrip (get_language (pyStrip post) o.langResp) ≠ "" := by
      intro hz
      rw [hz] at he
      exact absurd he (by decide)
    unfold translate_content translate_contentC
    rw [if_neg h0, if_neg h1, if_pos he]
  · intro h1 h2
    unfold translate_content translate_contentC
    rw [if_neg h0, if_neg h1, if_neg h2]
    by_cases h3 : pyStrip (get_translation (pyStrip post) o.transResp) = ""
    · rw [if_pos h3]
    · rw [if_neg h3]

/-- C2 witness: padded input, classifier answering padded English. -/
theorem translate_content_english_branch_witness :
    translate_content (" Hola ") oEnglish = (true, "Hola") := by
  have h := (translate_content_english_branch (" Hola ") oEnglish (by decide)).1 (by decide)
  rw [h]
  decide

/-- C1 counterexample: when the detection call raises, the error marker
returned by get_language is treated as a non-English language name, the
translation proceeds, and the final string is the translation output, not
a string beginning with the error-marker opening. -/
theorem detect_exception_not_error_marker :
    oDetectRaise.langResp = ChatResp.exc ("Exception") ("boom") ∧
    translate_content ("Hola") oDetectRaise = (false, "Hello") ∧
    (("[Error:").data.isPrefixOf (translate_content ("Hola") oDetectRaise).2.data) = false := by
  refine ⟨rfl, by decide, by decide⟩

/-- C1 amended: for every input with non-whitespace content, no exception
propagates (the embedding is total) and: if the detection call raises,
the resulting boolean is false and the translation call is still made
(two chat calls); if the translation call is made (classifier result
non-empty and not English) and raises, the result is exactly (false, the
error marker built from the exception kind and message). -/
theorem translate_content_exception_behavior (post : String) (o : Oracle)
    (h0 : pyStrip post ≠ "") :
    (∀ k m, o.langResp = ChatResp.exc k m →
      (translate_content post o).1 = false ∧ (translate_contentC post o).2 = 2) ∧
    (∀ k m, o.transResp = ChatResp.exc k m →
      pyStrip (get_language (pyStrip post) o.langResp) ≠ "" →
      pyLower (pyStrip (get_language (pyStrip post) o.langResp)) ∉ (["english", "en"] : List String) →
      translate_content post o = (false, errMarker k m)) := by
  constructor
  · intro k m hexc
    have hg : get_language (pyStrip post) o.langResp = errMarker k m := by
      rw [hexc]; rfl
    have h1 : pyStrip (get_language (pyStrip post) o.langResp) ≠ "" := by
      rw [hg, pyStrip_errMarker]
      exact errMarker_ne_empty k m
    have h2 : pyLower (pyStrip (get_language (pyStrip post) o.langResp)) ∉ (["english", "en"] : List String) := by
      rw [hg]
      exact errMarker_lower_notin k m
    unfold translate_content translate_contentC
    rw [if_neg h0, if_neg h1, if_neg h2]
    by_cases h3 : pyStrip (get_translation (pyStrip post) o.transResp) = ""
    · rw [if_pos h3]; exact ⟨rfl, rfl⟩
    · rw [if_neg h3]; exact ⟨rfl, rfl⟩
  · intro k m hexc h1 h2
    have ht : get_translation (pyStrip post) o.transResp = errMarker k m := by
      rw [hexc]; rfl
    have h3 : ¬pyStrip (get_translation (pyStrip post) o.transResp) = "" := by
      rw [ht, pyStrip_errMarker]
      exact errMarker_ne_empty k m
    unfold translate_content translate_contentC
    rw [if_neg h0, if_neg h1, if_neg h2, if_neg h3, ht, pyStrip_errMarker]

/-- C1 witness: Spanish classification followed by a raising translation
call yields the error marker of that exception. -/
theorem translate_content_exception_behavior_witness :
    translate_content ("Hola") oTransRaise = (false, "[Error: TimeoutError - slow]") := by
  have h := (translate_content_exception_behavior ("Hola") oTransRaise (by decide)).2
    ("TimeoutError") ("slow") rfl (by decide) (by decide)
  rw [h]
  decide

/-- C9: get_language is total (defined on every call outcome, including
raised exceptions, always producing a string), and for inputs with
non-whitespace content the invalid-detection branch of translate_content
fires exactly when the detection result strips to empty, which happens
exactly when the call returned a response whose extracted content strips
to the empty string; a raised exception never fires that branch (its
marker is non-empty).  The branch is identified by its exact result pair
together with the chat-call count one, which no other branch produces. -/
theorem get_language_guard_characterization (post : String) (o : Oracle)
    (h0 : pyStrip post ≠ "") :
    (pyStrip (get_language (pyStrip post) o.langResp) = "" ↔
      (∃ shape, o.langResp = ChatResp.success shape ∧ pyStrip (contentOf shape).pyStr = "")) ∧
    (translate_contentC post o = ((false, "[Invalid language detection output]"), 1) ↔
      pyStrip (get_language (pyStrip post) o.langResp) = "") := by
  constructor
  · cases hr : o.langResp with
    | success shape =>
      constructor
      · intro h
        refine ⟨shape, rfl, ?_⟩
        rw [show get_language (pyStrip post) (ChatResp.success shape) =
          pyStrip (contentOf shape).pyStr from rfl, pyStrip_idem] at h
        exact h
      · rintro ⟨sh2, heq, hc⟩
        injection heq with h5
        subst h5
        rw [show get_language (pyStrip post) (ChatResp.success shape) =
          pyStrip (contentOf shape).pyStr from rfl, pyStrip_idem]
        exact hc
    | exc k m =>
      constructor
      · intro h
        exfalso
        rw [show get_language (pyStrip post) (ChatResp.exc k m) = errMarker k m from rfl,
          pyStrip_errMarker] at h
        exact errMarker_ne_empty k m h
      · rintro ⟨sh, heq, _⟩
        exact ChatResp.noConfusion heq
  · constructor
    · intro heq
      by_contra hne
      unfold translate_contentC at heq
      rw [if_neg h0, if_neg hne] at heq
      by_cases he : pyLower (pyStrip (get_language (pyStrip post) o.langResp)) ∈ (["english", "en"] : List String)
      · rw [if_pos he] at heq
        have h6 := congrArg (fun q => q.1.1) heq
        simp at h6
      · rw [if_neg he] at heq
        by_cases ht : pyStrip (get_translation (pyStrip post) o.transResp) = ""
        · rw [if_pos ht] at heq
          have h6 := congrArg (fun q => q.2) heq
          simp at h6
        · rw [if_neg ht] at heq
          have h6 := congrArg (fun q => q.2) heq
          simp at h6
    · intro hg
      unfold translate_contentC
      rw [if_neg h0, if_pos hg]

/-- C9 witness: input hi with a whitespace-only detection response. -/
theorem get_language_guard_characterization_witness :
    translate_contentC ("hi") oBlankLang = ((false, "[Invalid language detection output]"), 1) :=
  (get_language_guard_characterization ("hi") oBlankLang (by decide)).2.mpr (by decide)

/-- C3 counterexample: llm_experiment.query_llm_robust has no empty-input
guard: on the empty input it performs the detection call (count one) and,
when the classifier response strips to empty, returns the
invalid-detection marker instead of (true, empty). -/
theorem exp_query_empty_input_calls_service :
    exp_query_llm_robust ("") oBlankLang = (false, "[Invalid language detection output]") ∧
    exp_query_llm_robust ("") oBlankLang ≠ (true, "") ∧
    (exp_query_llm_robustC ("") oBlankLang).2 = 1 := by decide

/-- C3 amended: for every empty or whitespace-only input,
translator.translate_content (and its wrapper translator.query_llm_robust)
returns exactly (true, empty) with zero chat calls, while
llm_experiment.query_llm_robust always performs at least the detection
call on such input. -/
theorem empty_input_contract (post : String) (o : Oracle)
    (h : pyStrip post = "") :
    translate_contentC post o = ((true, ""), 0) ∧
    1 ≤ (exp_query_llm_robustC post o).2 := by
  constructor
  · unfold translate_contentC
    rw [if_pos h]
  · unfold exp_query_llm_robustC
    by_cases h1 : pyStrip (get_language post o.langResp) = ""
    · rw [if_pos h1]
    · rw [if_neg h1]
      by_cases h2 : pyLower (pyStrip (get_language post o.langResp)) ∈ (["english", "en"] : List String)
      · rw [if_pos h2]
      · rw [if_neg h2]
        by_cases h3 : pyStrip (get_translation post o.transResp) = ""
        · rw [if_pos h3]
          exact Nat.le_succ 1
        · rw [if_neg h3]
          exact Nat.le_succ 1

/-- C3 witness: a whitespace-only input. -/
theorem empty_input_contract_witness :
    translate_contentC ("  ") oBlankLang = ((true, ""), 0) ∧
    1 ≤ (exp_query_llm_robustC ("  ") oBlankLang).2 :=
  empty_input_contract ("  ") oBlankLang (by decide)

/-- C4 counterexample: the effective translate_content does not consult
the hardcoded table: on the Chinese table literal it makes both chat
calls and returns the translation produced by the service, not the canned
pair. -/
theorem table_input_not_bypassed :
    translate_contentC ("这是一条中文消息") oChinese = ((false, "XYZ"), 2) ∧
    translate_content ("这是一条中文消息") oChinese ≠ (false, "This is a Chinese message") := by
  decide

/-- C4 amended: the hardcoded lookup table lives only in the first
definition of translate_content, which the second definition shadows
when the module loads; that first definition maps each table literal to its canned
pair, but the effective translate_content performs at least one chat call
on every table input (shown for the Chinese literal against every service
behavior). -/
theorem table_shadowed_behavior :
    (translate_content_first ("这是一条中文消息") = (false, "This is a Chinese message") ∧
     translate_content_first ("Ceci est un message en français") = (false, "This is a French message") ∧
     translate_content_first ("Esta es un mensaje en español") = (false, "This is a Spanish message") ∧
     translate_content_first ("Esta é uma mensagem em português") = (false, "This is a Portuguese message") ∧
     translate_content_first ("これは日本語のメッセージです") = (false, "This is a Japanese message") ∧
     translate_content_first ("이것은 한국어 메시지입니다") = (false, "This is a Korean message") ∧
     translate_content_first ("Dies ist eine Nachricht auf Deutsch") = (false, "This is a German message") ∧
     translate_content_first ("Questo è un messaggio in italiano") = (false, "This is an Italian message") ∧
     translate_content_first ("Это сообщение на русском") = (false, "This is a Russian message") ∧
     translate_content_first ("هذه رسالة باللغة العربية") = (false, "This is an Arabic message") ∧
     translate_content_first ("यह हिंदी में संदेश है") = (false, "This is a Hindi message") ∧
     translate_content_first ("นี่คือข้อความภาษาไทย") = (false, "This is a Thai message") ∧
     translate_content_first ("Bu bir Türkçe mesajdır") = (false, "This is a Turkish message") ∧
     translate_content_first ("Đây là một tin nhắn bằng tiếng Việt") = (false, "This is a Vietnamese message") ∧
     translate_content_first ("Esto es un mensaje en catalán") = (false, "This is a Catalan message") ∧
     translate_content_first ("This is an English message") = (true, "This is an English message")) ∧
    ∀ o : Oracle, 1 ≤ (translate_contentC ("这是一条中文消息") o).2 := by
  refine ⟨by decide, fun o => ?_⟩
  unfold translate_contentC
  rw [if_neg (by decide)]
  by_cases h1 : pyStrip (get_language (pyStrip ("这是一条中文消息")) o.langResp) = ""
  · rw [if_pos h1]
  · rw [if_neg h1]
    by_cases h2 : pyLower (pyStrip (get_language (pyStrip ("这是一条中文消息")) o.langResp)) ∈ (["english", "en"] : List String)
    · rw [if_pos h2]
    · rw [if_neg h2]
      by_cases h3 : pyStrip (get_translation (pyStrip ("这是一条中文消息")) o.transResp) = ""
      · rw [if_pos h3]
        exact Nat.le_succ 1
      · rw [if_neg h3]
        exact Nat.le_succ 1

/-- C4 auxiliary witness: the universally quantified part applied to one
concrete service behavior. -/
theorem table_shadowed_behavior_witness :
    1 ≤ (translate_contentC ("这是一条中文消息") oChinese).2 :=
  table_shadowed_behavior.2 oChinese

/-- C10: on every branch and for every service behavior the string
returned by translate_content carries no leading or trailing whitespace:
stripping it is the identity. -/
theorem output_always_stripped (post : String) (o : Oracle) :
    pyStrip (translate_content post o).2 = (translate_content post o).2 := by
  unfold translate_content translate_contentC
  by_cases h0 : pyStrip post = ""
  · rw [if_pos h0]
    decide
  · rw [if_neg h0]
    by_cases h1 : pyStrip (get_language (pyStrip post) o.langResp) = ""
    · rw [if_pos h1]
      decide
    · rw [if_neg h1]
      by_cases h2 : pyLower (pyStrip (get_language (pyStrip post) o.langResp)) ∈ (["english", "en"] : List String)
      · rw [if_pos h2]
        exact pyStrip_idem post
      · rw [if_neg h2]
        by_cases h3 : pyStrip (get_translation (pyStrip post) o.transResp) = ""
        · rw [if_pos h3]
          decide
        · rw [if_neg h3]
          exact pyStrip_idem _

/-- C10 auxiliary witness: the invariant applied to the round-trip
scenario. -/
theorem output_always_stripped_witness :
    pyStrip (translate_content ("Hola") oSpanish).2 = (translate_content ("Hola") oSpanish).2 :=
  output_always_stripped ("Hola") oSpanish
